import Mathlib

/-!
Shallow embedding of the content-service domain logic of the community-forum
single-page app (React + hosted record store).  The pure string helpers below
mirror the JavaScript string primitives the source relies on
(`split(" ")`, `join(" ")`, `trim()`, `toLowerCase()`, `includes`), and the
store operations mirror the handlers in `CreatePost.handleSubmit`,
`PostPage.handleUpvote` / `handleAddComment` / `handleDelete`,
`EditPost.handleSubmit`, and the view helpers in `HomeFeed`
(`filteredPosts`, `formatTimeAgo`, `truncateText`).
Timestamps are modelled as milliseconds (Nat); row ids as Nat.
-/

/-! ## JavaScript string primitives, modelled over character lists -/

/-- Whitespace predicate used by the model of JS `trim()`. -/
def wsChar (c : Char) : Bool := c.isWhitespace

/-- Drop whitespace from both ends of a character list. -/
def trimChars (l : List Char) : List Char :=
  ((l.dropWhile wsChar).reverse.dropWhile wsChar).reverse

/-- JS `s.trim()`. -/
def jsTrim (s : String) : String := String.mk (trimChars s.data)

/-- JS `s.toLowerCase()` (ASCII-adequate for this app's data). -/
def jsToLower (s : String) : String := String.mk (s.data.map Char.toLower)

/-- Does `needle` occur as a contiguous run inside the second list?
Mirrors JS `String.prototype.includes`. -/
def occursIn (needle : List Char) : List Char → Bool
  | [] => needle.isEmpty
  | c :: rest => needle.isPrefixOf (c :: rest) || occursIn needle rest

/-- JS `s.includes(sub)`. -/
def jsIncludes (s sub : String) : Bool := occursIn sub.data s.data

/-- JS `text.split(" ")` on character lists: split at every single space,
keeping empty segments (so `"a  b"` gives `["a", "", "b"]` and `""` gives
`[""]`). -/
def splitOnSpace : List Char → List (List Char)
  | [] => [[]]
  | c :: rest =>
    if c == ' ' then [] :: splitOnSpace rest
    else
      match splitOnSpace rest with
      | [] => [[c]]
      | w :: ws => (c :: w) :: ws

/-- JS `arr.join(" ")` on character lists. -/
def joinSpace : List (List Char) → List Char
  | [] => []
  | [w] => w
  | w :: w2 :: ws => w ++ ' ' :: joinSpace (w2 :: ws)

/-- JS `text.split(" ")`. -/
def jsSplitOnSpace (s : String) : List String :=
  (splitOnSpace s.data).map String.mk

/-- JS `arr.join(" ")`. -/
def jsJoinSpace (l : List String) : String :=
  String.mk (joinSpace (l.map String.data))

/-! ## Data model (tables `posts` and `comments`) -/

/-- A row of the `posts` table, as read/written by the app. -/
structure Post where
  id : Nat
  title : String
  content : String
  image_url : String
  upvotes : Nat
  created_at : Nat
  user_id : String
  secret_key : String
  flags : List String
  repost_id : Option Nat
deriving DecidableEq

/-- A row of the `comments` table. -/
structure Comment where
  id : Nat
  post_id : Nat
  content : String
  created_at : Nat
  user_id : String
deriving DecidableEq

/-- The two collections the app keeps in the hosted record store. -/
structure Store where
  posts : List Post
  comments : List Comment
deriving DecidableEq

/-- Error outcomes surfaced by the handlers (alerts / thrown store errors). -/
inductive OpError where
  | ValidationError
  | UnauthorizedError
  | NotFoundError
  | StoreError
deriving DecidableEq

/-! ## Content-service operations, from the source handlers -/

/-- Exact-match lookup by id, as in the `select().eq("id", id).single()`
calls of `PostPage.fetchPost` and `EditPost.fetchPost`. -/
def getPost (s : Store) (id : Nat) : Option Post :=
  s.posts.find? (fun p => p.id == id)

/-- From `CreatePost.handleSubmit`: rejects a title that is empty after
`trim()`, otherwise inserts a row carrying the form fields verbatim plus a
fresh `user_id` and `repost_id = null`.
Modelled from the spec: the store-side `insert-row` behaviour — the
store-assigned fresh `id` and the column defaults `upvotes = 0`,
`created_at = now` — is not in the sources (it lives in the hosted database
schema); it follows spec §3 and §4.1. -/
def createPost (s : Store) (title content image_url secret_key : String)
    (flags : List String) (userId : String) (now : Nat) :
    Store × Except OpError Post :=
  if jsTrim title = "" then (s, .error .ValidationError)
  else
    let freshId := s.posts.foldr (fun p m => max (p.id + 1) m) 0
    let p : Post :=
      { id := freshId, title := title, content := content,
        image_url := image_url, upvotes := 0, created_at := now,
        user_id := userId, secret_key := secret_key, flags := flags,
        repost_id := none }
    ({ s with posts := s.posts ++ [p] }, .ok p)

/-- From `PostPage.handleAddComment`: a comment whose content is empty after
`trim()` is silently ignored; otherwise the row is inserted with the content
verbatim and a fresh `user_id`.  Store-assigned `id` and `created_at = now`
are modelled from the spec (see `createPost`). -/
def addComment (s : Store) (postId : Nat) (content : String)
    (userId : String) (now : Nat) : Store × Option Comment :=
  if jsTrim content = "" then (s, none)
  else
    let freshId := s.comments.foldr (fun c m => max (c.id + 1) m) 0
    let c : Comment :=
      { id := freshId, post_id := postId, content := content,
        created_at := now, user_id := userId }
    ({ s with comments := s.comments ++ [c] }, some c)

/-- From `PostPage.handleUpvote`: read the current post's `upvotes`, write
back `upvotes + 1` to the row with this id. -/
def upvote (s : Store) (id : Nat) : Store :=
  match getPost s id with
  | none => s
  | some p =>
      { s with posts := s.posts.map (fun q =>
          if q.id == id then { q with upvotes := p.upvotes + 1 } else q) }

/-- N sequential calls of `handleUpvote`, no interleaving. -/
def upvoteN (s : Store) (id : Nat) : Nat → Store
  | 0 => s
  | n + 1 => upvote (upvoteN s id n) id

/-- From `EditPost.handleSubmit`: guard `secretKey !== post.secret_key`
(alert "Invalid secret key", no write), then guard `!formData.title.trim()`
(alert "Title is required", no write), then update exactly the fields
`title`, `content`, `image_url`, `flags` of the row with this id. -/
def updatePost (s : Store) (id : Nat)
    (suppliedKey title content image_url : String) (flags : List String) :
    Store × Option OpError :=
  match getPost s id with
  | none => (s, some .UnauthorizedError)
  | some p =>
      if suppliedKey = p.secret_key then
        if jsTrim title = "" then (s, some .ValidationError)
        else
          ({ s with posts := s.posts.map (fun q =>
              if q.id == id then
                { q with title := title, content := content,
                         image_url := image_url, flags := flags }
              else q) }, none)
      else (s, some .UnauthorizedError)

/-- The comment-deletion step of `PostPage.handleDelete`
(`delete().eq("post_id", post.id)` on `comments`): when the store call fails
(`commentsError`), the error is only logged and the collection is left
untouched; the handler continues either way. -/
def deleteCommentsStep (s : Store) (id : Nat) (commentsError : Bool) : Store :=
  if commentsError then s
  else { s with comments := s.comments.filter (fun c => !(c.post_id == id)) }

/-- The post-deletion step of `PostPage.handleDelete`
(`delete().eq("id", post.id)` on `posts`). -/
def deletePostRow (s : Store) (id : Nat) : Store :=
  { s with posts := s.posts.filter (fun q => !(q.id == id)) }

/-- From `PostPage.handleDelete`: guard `secretKey !== post.secret_key`
(alert "Invalid secret key", no write); on match, first run the
comment-deletion step (whose failure is logged and swallowed), then delete
the post row, and report success. -/
def deletePost (s : Store) (id : Nat) (suppliedKey : String)
    (commentsError : Bool) : Store × Option OpError :=
  match getPost s id with
  | none => (s, some .UnauthorizedError)
  | some p =>
      if suppliedKey = p.secret_key then
        (deletePostRow (deleteCommentsStep s id commentsError) id, none)
      else (s, some .UnauthorizedError)

/-! ## View projections, from HomeFeed -/

/-- The predicate of `HomeFeed.filteredPosts`:
`post.title.toLowerCase().includes(searchTerm.toLowerCase())` AND
(`!filterFlag || post.flags.includes(filterFlag)`). -/
def postMatchesFeed (searchTerm filterFlag : String) (p : Post) : Bool :=
  jsIncludes (jsToLower p.title) (jsToLower searchTerm) &&
  (filterFlag == "" || p.flags.contains filterFlag)

/-- `HomeFeed.filteredPosts` as a function of the inputs. -/
def filterFeed (posts : List Post) (searchTerm filterFlag : String) :
    List Post :=
  posts.filter (postMatchesFeed searchTerm filterFlag)

/-- `HomeFeed.formatTimeAgo` (also duplicated in PostPage): elapsed
milliseconds, floor-divided into hours. -/
def formatTimeAgo (created_at now : Nat) : String :=
  let diffInHours := (now - created_at) / (1000 * 60 * 60)
  if diffInHours < 1 then "Just now"
  else if diffInHours < 24 then toString diffInHours ++ "h ago"
  else toString (diffInHours / 24) ++ "d ago"

/-- `HomeFeed.truncateText`. -/
def truncateText (text : String) (maxWords : Nat) : String :=
  let words := jsSplitOnSpace text
  if words.length ≤ maxWords then text
  else jsJoinSpace (words.take maxWords) ++ "..."

/-! ## Concrete sample data for witnesses and counterexamples -/

/-- A sample stored post, protected by secret key "abc". -/
def samplePost : Post :=
  { id := 1, title := "Transfer news", content := "Great signing on the way",
    image_url := "", upvotes := 5, created_at := 1000, user_id := "u1",
    secret_key := "abc", flags := ["News"], repost_id := none }

/-- A sample stored post whose secret key is the empty string. -/
def openPost : Post :=
  { id := 2, title := "Open thread", content := "", image_url := "",
    upvotes := 0, created_at := 2000, user_id := "u2", secret_key := "",
    flags := [], repost_id := none }

/-- A sample store holding both posts and one comment on each. -/
def sampleStore : Store :=
  { posts := [samplePost, openPost],
    comments :=
      [ { id := 1, post_id := 1, content := "Agreed", created_at := 1500,
          user_id := "u3" },
        { id := 2, post_id := 2, content := "First", created_at := 2500,
          user_id := "u4" } ] }

/-! ## Helper lemmas -/

theorem occursIn_nil (hay : List Char) : occursIn [] hay = true := by
  induction hay with
  | nil => rfl
  | cons c rest ih => simp [occursIn, List.isPrefixOf]

theorem postMatchesFeed_empty (p : Post) : postMatchesFeed "" "" p = true := by
  have h : (jsToLower "").data = [] := by decide
  unfold postMatchesFeed jsIncludes
  rw [h, occursIn_nil]
  rfl

theorem getPost_map (s : Store) (id : Nat) (f : Post → Post)
    (hid : ∀ q, (f q).id = q.id) :
    getPost { s with posts := s.posts.map f } id = (getPost s id).map f := by
  have hpred : ((fun p : Post => p.id == id) ∘ f) =
      (fun p : Post => p.id == id) := by
    funext q
    show ((f q).id == id) = (q.id == id)
    rw [hid q]
  unfold getPost
  show (s.posts.map f).find? (fun p => p.id == id) = _
  rw [List.find?_map, hpred]

theorem find?_id_eq {s : Store} {id : Nat} {p : Post}
    (h : getPost s id = some p) : (p.id == id) = true := by
  unfold getPost at h
  have h2 := List.find?_some h
  exact h2

theorem getPost_upvote {s : Store} {id : Nat} {p : Post}
    (h : getPost s id = some p) :
    getPost (upvote s id) id = some { p with upvotes := p.upvotes + 1 } := by
  have hp := find?_id_eq h
  have hid : ∀ q : Post,
      ((if q.id == id then { q with upvotes := p.upvotes + 1 } else q) :
        Post).id = q.id := by
    intro q; split <;> rfl
  unfold upvote
  rw [h]
  rw [getPost_map s id _ hid, h, Option.map_some', if_pos hp]

/-! ## Claim theorems -/

/-- C5: for every text and maxWords, truncateText returns the text unchanged
when its word count (tokens of split-on-space) is at most maxWords, and
otherwise returns exactly the first maxWords words joined with single spaces
followed by "...". -/
theorem truncateText_spec (text : String) (maxWords : Nat) :
    ((jsSplitOnSpace text).length ≤ maxWords →
      truncateText text maxWords = text) ∧
    (maxWords < (jsSplitOnSpace text).length →
      truncateText text maxWords =
        jsJoinSpace ((jsSplitOnSpace text).take maxWords) ++ "...") := by
  constructor
  · intro h
    simp [truncateText, h]
  · intro h
    have h2 : ¬(jsSplitOnSpace text).length ≤ maxWords := Nat.not_le.mpr h
    simp [truncateText, h2]

/-- Witness for C5: both branches evaluated at a concrete text. -/
theorem truncateText_spec_witness :
    truncateText "one two three" 3 = "one two three" ∧
    truncateText "one two three" 2 =
      jsJoinSpace ((jsSplitOnSpace "one two three").take 2) ++ "..." :=
  ⟨(truncateText_spec "one two three" 3).1 (by decide),
   (truncateText_spec "one two three" 2).2 (by decide)⟩

/-- C6: with now ≥ timestamp, formatTimeAgo yields "Just now" below one hour
of elapsed time, "Nh ago" with N = floor(elapsed hours) below 24 hours, and
"Nd ago" with N = floor(elapsed hours / 24) from 24 hours on; in particular
59 min gives "Just now", 60 min "1h ago", 23h59m "23h ago", 24h "1d ago". -/
theorem formatTimeAgo_spec (ts now : Nat) (_h : ts ≤ now) :
    ((now - ts < 3600000 → formatTimeAgo ts now = "Just now") ∧
     (3600000 ≤ now - ts → now - ts < 86400000 →
       formatTimeAgo ts now = toString ((now - ts) / 3600000) ++ "h ago") ∧
     (86400000 ≤ now - ts →
       formatTimeAgo ts now =
         toString ((now - ts) / 3600000 / 24) ++ "d ago")) ∧
    formatTimeAgo 0 3540000 = "Just now" ∧
    formatTimeAgo 0 3600000 = "1h ago" ∧
    formatTimeAgo 0 86340000 = "23h ago" ∧
    formatTimeAgo 0 86400000 = "1d ago" := by
  refine ⟨⟨?_, ?_, ?_⟩, by decide, by decide, by decide, by decide⟩
  · intro hlt
    have hz : (now - ts) / 3600000 = 0 := Nat.div_eq_of_lt hlt
    simp [formatTimeAgo, hz]
  · intro h1 h2
    have hge : 1 ≤ (now - ts) / 3600000 := by
      rw [Nat.le_div_iff_mul_le (by norm_num)]
      omega
    have hlt : (now - ts) / 3600000 < 24 := by
      rw [Nat.div_lt_iff_lt_mul (by norm_num)]
      omega
    simp [formatTimeAgo, Nat.not_lt.mpr hge, hlt]
  · intro h1
    have hge : 24 ≤ (now - ts) / 3600000 := by
      rw [Nat.le_div_iff_mul_le (by norm_num)]
      omega
    have h1' : ¬(now - ts) / 3600000 < 1 := by omega
    have h24 : ¬(now - ts) / 3600000 < 24 := by omega
    simp [formatTimeAgo, h1', h24]

/-- Witness for C6 at two hours elapsed. -/
theorem formatTimeAgo_spec_witness :
    formatTimeAgo 0 7200000 = toString ((7200000 - 0) / 3600000) ++ "h ago" :=
  (formatTimeAgo_spec 0 7200000 (by decide)).1.2.1 (by decide) (by decide)

/-- C9: filterFeed is idempotent for every post list, searchTerm and
categoryFilter, and with empty searchTerm and empty categoryFilter it
returns the input sequence unchanged, in order. -/
theorem filterFeed_idempotent_and_empty_id :
    (∀ (posts : List Post) (searchTerm filterFlag : String),
      filterFeed (filterFeed posts searchTerm filterFlag) searchTerm
          filterFlag =
        filterFeed posts searchTerm filterFlag) ∧
    (∀ posts : List Post, filterFeed posts "" "" = posts) := by
  constructor
  · intro posts searchTerm filterFlag
    exact List.filter_eq_self.mpr fun a ha => (List.mem_filter.mp ha).2
  · intro posts
    exact List.filter_eq_self.mpr fun a _ => postMatchesFeed_empty a

/-- C2: updatePost with a supplied secret key that differs from the stored
one returns the store fully unchanged (every field of every row) and signals
UnauthorizedError, for any input fields. -/
theorem updatePost_wrong_key_no_write (s : Store) (id : Nat) (p : Post)
    (key title content image_url : String) (flags : List String)
    (hfind : getPost s id = some p) (hkey : key ≠ p.secret_key) :
    updatePost s id key title content image_url flags =
      (s, some .UnauthorizedError) := by
  simp [updatePost, hfind, hkey]

/-- Witness for C2 at a concrete store and wrong key. -/
theorem updatePost_wrong_key_no_write_witness :
    updatePost sampleStore 1 "wrong" "t" "c" "" [] =
      (sampleStore, some .UnauthorizedError) :=
  updatePost_wrong_key_no_write sampleStore 1 samplePost "wrong" "t" "c" "" []
    (by decide) (by decide)

/-- C4: createPost with a title empty after trimming fails with
ValidationError and leaves the store unchanged; with a title non-empty after
trimming it succeeds, appending one row, and the returned stored Post has
upvotes exactly 0 and created_at set to the creation time. -/
theorem createPost_validation (s : Store)
    (title content image_url skey uid : String) (flags : List String)
    (now : Nat) :
    (jsTrim title = "" →
      createPost s title content image_url skey flags uid now =
        (s, .error .ValidationError)) ∧
    (jsTrim title ≠ "" →
      ∃ p, createPost s title content image_url skey flags uid now =
          ({ s with posts := s.posts ++ [p] }, .ok p) ∧
        p.upvotes = 0 ∧ p.created_at = now) := by
  constructor
  · intro ht
    simp [createPost, ht]
  · intro ht
    refine ⟨{ id := s.posts.foldr (fun p m => max (p.id + 1) m) 0,
              title := title, content := content, image_url := image_url,
              upvotes := 0, created_at := now, user_id := uid,
              secret_key := skey, flags := flags, repost_id := none },
            ?_, rfl, rfl⟩
    simp [createPost, ht]

/-- Witness for C4: both branches at concrete inputs. -/
theorem createPost_validation_witness :
    createPost sampleStore "   " "c" "" "k" [] "u" 7 =
      (sampleStore, .error .ValidationError) ∧
    ∃ p, createPost sampleStore " Hi " "c" "" "k" [] "u" 7 =
        ({ sampleStore with posts := sampleStore.posts ++ [p] }, .ok p) ∧
      p.upvotes = 0 ∧ p.created_at = 7 :=
  ⟨(createPost_validation sampleStore "   " "c" "" "k" "u" [] 7).1 (by decide),
   (createPost_validation sampleStore " Hi " "c" "" "k" "u" [] 7).2 (by decide)⟩

/-- C3: deletePost with the matching key removes every comment of the post
and then the post row, reporting success; when the comment-deletion step
fails (error logged, not propagated), the post row is still deleted, the
comments are left as they were, and success is still reported. -/
theorem deletePost_cascade (s : Store) (id : Nat) (p : Post) (key : String)
    (hfind : getPost s id = some p) (hkey : key = p.secret_key) :
    deletePost s id key false =
      ({ posts := s.posts.filter (fun q => !(q.id == id)),
         comments := s.comments.filter (fun c => !(c.post_id == id)) },
        none) ∧
    deletePost s id key true =
      ({ posts := s.posts.filter (fun q => !(q.id == id)),
         comments := s.comments }, none) := by
  constructor <;>
    simp [deletePost, hfind, hkey, deleteCommentsStep, deletePostRow]

/-- Witness for C3 at a concrete store and key. -/
theorem deletePost_cascade_witness :
    deletePost sampleStore 1 "abc" false =
      ({ posts := sampleStore.posts.filter (fun q => !(q.id == 1)),
         comments :=
           sampleStore.comments.filter (fun c => !(c.post_id == 1)) },
        none) ∧
    deletePost sampleStore 1 "abc" true =
      ({ posts := sampleStore.posts.filter (fun q => !(q.id == 1)),
         comments := sampleStore.comments }, none) :=
  deletePost_cascade sampleStore 1 samplePost "abc" (by decide) (by decide)

/-- C7: starting from a stored post with upvote count U, N sequential calls
of the upvote operation with no interleaving leave the stored count at
exactly U + N. -/
theorem upvoteN_adds_N (s : Store) (id : Nat) (p : Post)
    (h : getPost s id = some p) (N : Nat) :
    ∃ p', getPost (upvoteN s id N) id = some p' ∧
      p'.upvotes = p.upvotes + N := by
  induction N with
  | zero => exact ⟨p, h, rfl⟩
  | succ n ih =>
      obtain ⟨p', hp', hu⟩ := ih
      refine ⟨{ p' with upvotes := p'.upvotes + 1 }, ?_, ?_⟩
      · show getPost (upvote (upvoteN s id n) id) id = _
        exact getPost_upvote hp'
      · show p'.upvotes + 1 = p.upvotes + (n + 1)
        omega

/-- Witness for C7: three upvotes on a post with 5 upvotes give 8. -/
theorem upvoteN_adds_N_witness :
    ∃ p', getPost (upvoteN sampleStore 1 3) 1 = some p' ∧
      p'.upvotes = samplePost.upvotes + 3 :=
  upvoteN_adds_N sampleStore 1 samplePost (by decide) 3

/-- C8: a successful updatePost (matching key, valid title) overwrites
exactly the provided title, content, image_url and flags on the stored post,
while its id, created_at, user_id, secret_key and upvotes are unchanged, and
the comments collection is untouched. -/
theorem updatePost_success_frame (s : Store) (id : Nat) (p : Post)
    (key title content image_url : String) (flags : List String)
    (hfind : getPost s id = some p) (hkey : key = p.secret_key)
    (htitle : jsTrim title ≠ "") :
    (updatePost s id key title content image_url flags).2 = none ∧
    (updatePost s id key title content image_url flags).1.comments =
      s.comments ∧
    ∃ p', getPost (updatePost s id key title content image_url flags).1 id =
        some p' ∧
      p'.title = title ∧ p'.content = content ∧
      p'.image_url = image_url ∧ p'.flags = flags ∧
      p'.id = p.id ∧ p'.created_at = p.created_at ∧
      p'.user_id = p.user_id ∧ p'.secret_key = p.secret_key ∧
      p'.upvotes = p.upvotes := by
  have hstep : updatePost s id key title content image_url flags =
      ({ s with posts := s.posts.map (fun q =>
          if q.id == id then
            { q with title := title, content := content,
                     image_url := image_url, flags := flags }
          else q) }, none) := by
    simp [updatePost, hfind, hkey, htitle]
  have hid : ∀ q : Post, ((if q.id == id then
      { q with title := title, content := content, image_url := image_url,
               flags := flags } else q) : Post).id = q.id := by
    intro q; split <;> rfl
  rw [hstep]
  refine ⟨rfl, rfl, ?_⟩
  rw [getPost_map s id _ hid, hfind, Option.map_some',
    if_pos (find?_id_eq hfind)]
  exact ⟨_, rfl, rfl, rfl, rfl, rfl, rfl, rfl, rfl, rfl, rfl⟩

/-- Witness for C8 at a concrete store, key and fields. -/
theorem updatePost_success_frame_witness :
    (updatePost sampleStore 1 "abc" " New " "body" "img" ["Opinion"]).2 =
      none ∧
    (updatePost sampleStore 1 "abc" " New " "body" "img"
        ["Opinion"]).1.comments = sampleStore.comments ∧
    ∃ p', getPost (updatePost sampleStore 1 "abc" " New " "body" "img"
        ["Opinion"]).1 1 = some p' ∧
      p'.title = " New " ∧ p'.content = "body" ∧
      p'.image_url = "img" ∧ p'.flags = ["Opinion"] ∧
      p'.id = samplePost.id ∧ p'.created_at = samplePost.created_at ∧
      p'.user_id = samplePost.user_id ∧
      p'.secret_key = samplePost.secret_key ∧
      p'.upvotes = samplePost.upvotes :=
  updatePost_success_frame sampleStore 1 samplePost "abc" " New " "body"
    "img" ["Opinion"] (by decide) (by decide) (by decide)

/-- C10: trimming is only a presence check, never applied to stored data:
createPost stores the title verbatim (leading/trailing whitespace included)
and addComment stores the comment content verbatim. -/
theorem stored_text_verbatim :
    (∀ (s : Store) (title content image_url skey uid : String)
        (flags : List String) (now : Nat), jsTrim title ≠ "" →
      ∃ p, (createPost s title content image_url skey flags uid now).2 =
          .ok p ∧
        (createPost s title content image_url skey flags uid now).1.posts =
          s.posts ++ [p] ∧
        p.title = title) ∧
    (∀ (s : Store) (postId : Nat) (content uid : String) (now : Nat),
        jsTrim content ≠ "" →
      ∃ c, (addComment s postId content uid now).2 = some c ∧
        (addComment s postId content uid now).1.comments =
          s.comments ++ [c] ∧
        c.content = content) := by
  constructor
  · intro s title content image_url skey uid flags now ht
    refine ⟨{ id := s.posts.foldr (fun p m => max (p.id + 1) m) 0,
              title := title, content := content, image_url := image_url,
              upvotes := 0, created_at := now, user_id := uid,
              secret_key := skey, flags := flags, repost_id := none },
            ?_, ?_, rfl⟩ <;>
      simp [createPost, ht]
  · intro s postId content uid now hc
    refine ⟨{ id := s.comments.foldr (fun c m => max (c.id + 1) m) 0,
              post_id := postId, content := content, created_at := now,
              user_id := uid }, ?_, ?_, rfl⟩ <;>
      simp [addComment, hc]

/-- Witness for C10: a padded title and a padded comment are stored with
their whitespace intact. -/
theorem stored_text_verbatim_witness :
    (∃ p, (createPost sampleStore " Hi " "c" "" "k" [] "u" 9).2 = .ok p ∧
      (createPost sampleStore " Hi " "c" "" "k" [] "u" 9).1.posts =
        sampleStore.posts ++ [p] ∧
      p.title = " Hi ") ∧
    (∃ c, (addComment sampleStore 1 " hey " "u" 9).2 = some c ∧
      (addComment sampleStore 1 " hey " "u" 9).1.comments =
        sampleStore.comments ++ [c] ∧
      c.content = " hey ") :=
  ⟨stored_text_verbatim.1 sampleStore " Hi " "c" "" "k" "u" [] 9 (by decide),
   stored_text_verbatim.2 sampleStore 1 " hey " "u" 9 (by decide)⟩

/-- C1 counterexample: the stored post openPost (in sampleStore, id 2) has
an empty secret_key, yet the supplied key "anything" is rejected by both the
delete and the edit authorization — the claim that any key is accepted when
the stored key is empty is false on the code. -/
theorem emptyStoredKey_rejects_nonempty_key :
    openPost.secret_key = "" ∧
    getPost sampleStore 2 = some openPost ∧
    deletePost sampleStore 2 "anything" false =
      (sampleStore, some .UnauthorizedError) ∧
    updatePost sampleStore 2 "anything" "t" "c" "" [] =
      (sampleStore, some .UnauthorizedError) := by
  refine ⟨rfl, by decide, by decide, by decide⟩

/-- C1 amended: authorization is exact string comparison, so for a stored
post whose secret_key is empty or absent, edit and delete authorization
succeeds exactly when the supplied key is itself the empty string — not for
every supplied key. -/
theorem emptyStoredKey_auth_iff_empty (s : Store) (id : Nat) (p : Post)
    (key : String) (hfind : getPost s id = some p)
    (hp : p.secret_key = "") :
    ((deletePost s id key false).2 ≠ some .UnauthorizedError ↔ key = "") ∧
    (∀ title content image_url flags,
      ((updatePost s id key title content image_url flags).2 ≠
          some .UnauthorizedError ↔ key = "")) := by
  have hVU : (OpError.ValidationError = OpError.UnauthorizedError) = False :=
    by simp
  constructor
  · by_cases hk : key = p.secret_key
    · have hk0 : key = "" := by rw [hk, hp]
      simp [deletePost, hfind, hk, hk0, hp]
    · have hk0 : key ≠ "" := by rw [← hp]; exact hk
      simp [deletePost, hfind, hk, hk0, hp]
  · intro title content image_url flags
    by_cases hk : key = p.secret_key
    · have hk0 : key = "" := by rw [hk, hp]
      by_cases ht : jsTrim title = ""
      · simp [updatePost, hfind, hk, ht, hk0, hVU, hp]
      · simp [updatePost, hfind, hk, ht, hk0, hp]
    · have hk0 : key ≠ "" := by rw [← hp]; exact hk
      simp [updatePost, hfind, hk, hk0]

/-- Witness for the amended C1 at a concrete store: with the empty supplied
key the delete authorization on the unprotected post goes through. -/
theorem emptyStoredKey_auth_iff_empty_witness :
    (deletePost sampleStore 2 "" false).2 ≠ some .UnauthorizedError ↔
      ("" : String) = "" :=
  (emptyStoredKey_auth_iff_empty sampleStore 2 openPost ""
    (by decide) (by decide)).1
